import Mathlib

/-!
# Verification of the Express.js demo server's decision logic

Shallow embedding of the repository's error-classification middleware
(`middleware/errorHandler`), health/readiness aggregation (health router),
configuration export shape (`config/index.js`) and correlation-ID middleware
(`middleware/logger`), together with theorems settling the specification
claims about them.

JavaScript idioms are modelled explicitly:
* absent object fields are `Option.none`;
* JS truthiness on numbers treats `0` as falsy, on strings treats `""` as falsy;
* object literals with duplicate keys keep the *last* binding;
* case-insensitive matching is modelled by ASCII lowercasing (all the
  patterns involved are ASCII).
-/

/-! ## Character and substring utilities (model of `String.prototype.toLowerCase`,
`String.prototype.includes` and the `/i` regex flag, for ASCII patterns) -/

/-- ASCII lowercasing of a single character. -/
def lowerChar (c : Char) : Char :=
  if 65 ≤ c.toNat ∧ c.toNat ≤ 90 then Char.ofNat (c.toNat + 32) else c

/-- ASCII lowercasing of a character list. -/
def lowerList (l : List Char) : List Char := l.map lowerChar

/-- Does the second list start with the first? -/
def leadsWith : List Char → List Char → Bool
  | [], _ => true
  | _ :: _, [] => false
  | a :: as, b :: bs => a == b && leadsWith as bs

/-- Does `pat` occur as a contiguous subsequence of the list? -/
def containsSeq (pat : List Char) : List Char → Bool
  | [] => leadsWith pat []
  | c :: cs => leadsWith pat (c :: cs) || containsSeq pat cs

/-- The suffix after the first occurrence of `pat`, when `pat` occurs. -/
def afterSeq (pat : List Char) : List Char → Option (List Char)
  | [] => if pat.isEmpty then some [] else none
  | c :: cs =>
    if leadsWith pat (c :: cs) then some ((c :: cs).drop pat.length)
    else afterSeq pat cs

/-- Case-insensitive substring test: `pat` is given lowercase, the subject is
lowercased before matching (model of `includes` after `toLowerCase`, and of
an `/i` regex consisting of literal characters). -/
def strContainsCI (s : String) (pat : String) : Bool :=
  containsSeq pat.data (lowerList s.data)

/-- JS regex line terminators, which `.` does not match. -/
def isLineTerm (c : Char) : Bool :=
  c == '\n' || c == '\r' || c == ' ' || c == ' '

/-- Split a character list into the maximal runs free of line terminators. -/
def splitSegs : List Char → List (List Char)
  | [] => [[]]
  | c :: cs =>
    let r := splitSegs cs
    if isLineTerm c then [] :: r
    else
      match r with
      | s :: ss => (c :: s) :: ss
      | [] => [[c]]

/-- Model of the regex `/file.*path/i`: within some line-terminator-free run of
the lowercased subject, `file` occurs and `path` occurs after it
(`.` in a JS regex matches any character except a line terminator). -/
def filePathHit (s : String) : Bool :=
  (splitSegs (lowerList s.data)).any fun seg =>
    match afterSeq ("file".data) seg with
    | some rest => containsSeq ("path".data) rest
    | none => false

/-! ## JS truthiness helpers -/

/-- JS truthiness of a possibly-absent number: `undefined` and `0` are falsy. -/
def jsTruthyNum (o : Option Int) : Option Int :=
  match o with
  | some v => if v = 0 then none else some v
  | none => none

/-- JS truthiness of a possibly-absent string: `undefined` and `""` are falsy. -/
def jsTruthyStr (o : Option String) : Option String :=
  match o with
  | some s => if s = "" then none else some s
  | none => none

/-- Model of `a || b` for numbers: the first truthy operand. -/
def firstTruthyNum (a b : Option Int) : Option Int :=
  match jsTruthyNum a with
  | some v => some v
  | none => jsTruthyNum b

/-- Model of `a || b` where `b` is a definite string. -/
def jsOrStr (a : Option String) (b : String) : String :=
  match jsTruthyStr a with
  | some s => s
  | none => b

/-- Model of a JS object literal used as a lookup table: the bindings are kept
in source order and a *later* binding for the same key overwrites an earlier
one, exactly as in a JS object literal. -/
def jsObjectLookup {α : Type} (l : List (String × α)) (k : String) : Option α :=
  l.foldl (fun acc kv => if kv.1 = k then some kv.2 else acc) none

/-! ## Error classification (`middleware/errorHandler`, src/unnamed/part_002) -/

/-- Result of `classifyError`: HTTP status plus category tag. -/
structure ErrClass where
  status : Int
  category : String
deriving DecidableEq, Repr

/-- The shape of a JS failure value as read by the error-handler middleware:
every field the middleware inspects, each possibly absent. `ctorName` models
`error.constructor.name`. -/
structure JsError where
  status : Option Int := none
  statusCode : Option Int := none
  name : Option String := none
  ctorName : Option String := none
  code : Option String := none
  message : Option String := none
deriving DecidableEq, Repr

/-- The `ERROR_CLASSIFICATIONS` object literal, transcribed binding by binding
in source order. Note the key `CastError` is bound twice (status 400 in the
client-error block, status 404 in the not-found block); JS object-literal
semantics keep the later binding. -/
def ERROR_CLASSIFICATIONS : List (String × ErrClass) := [
  (("ValidationError"), ⟨400, ("client")⟩),
  (("CastError"), ⟨400, ("client")⟩),
  (("SyntaxError"), ⟨400, ("client")⟩),
  (("URIError"), ⟨400, ("client")⟩),
  (("MulterError"), ⟨400, ("client")⟩),
  (("UnauthorizedError"), ⟨401, ("client")⟩),
  (("JsonWebTokenError"), ⟨401, ("client")⟩),
  (("TokenExpiredError"), ⟨401, ("client")⟩),
  (("ForbiddenError"), ⟨403, ("client")⟩),
  (("NotFoundError"), ⟨404, ("client")⟩),
  (("CastError"), ⟨404, ("client")⟩),
  (("MethodNotAllowedError"), ⟨405, ("client")⟩),
  (("NotAcceptableError"), ⟨406, ("client")⟩),
  (("UnsupportedMediaTypeError"), ⟨415, ("client")⟩),
  (("PayloadTooLargeError"), ⟨413, ("client")⟩),
  (("TooManyRequestsError"), ⟨429, ("client")⟩),
  (("ConflictError"), ⟨409, ("client")⟩),
  (("InternalServerError"), ⟨500, ("server")⟩),
  (("NotImplementedError"), ⟨501, ("server")⟩),
  (("BadGatewayError"), ⟨502, ("server")⟩),
  (("ServiceUnavailableError"), ⟨503, ("server")⟩),
  (("GatewayTimeoutError"), ⟨504, ("server")⟩)]

/-- Lookup in the classification object (last binding wins). -/
def classificationFor (n : String) : Option ErrClass :=
  jsObjectLookup ERROR_CLASSIFICATIONS n

/-- `classifyError` from the error-handler middleware, in its exact priority
order: explicit `status`/`statusCode` field, then `error.name` in the table,
then `error.constructor.name` in the table, then the `error.code` switch,
then the message-substring heuristics, then the `500/server` default. -/
def classifyError (e : JsError) : ErrClass :=
  match firstTruthyNum e.status e.statusCode with
  | some s => ⟨s, if 400 ≤ s ∧ s < 500 then ("client") else ("server")⟩
  | none =>
    match (jsTruthyStr e.name).bind classificationFor with
    | some c => c
    | none =>
      match (jsTruthyStr e.ctorName).bind classificationFor with
      | some c => c
      | none =>
        match jsTruthyStr e.code with
        | some c =>
          if c = "EADDRINUSE" ∨ c = "ECONNREFUSED" ∨ c = "ENOTFOUND" ∨ c = "ETIMEDOUT" then
            ⟨503, ("server")⟩
          else if c = "EACCES" then ⟨403, ("client")⟩
          else ⟨500, ("server")⟩
        | none =>
          match jsTruthyStr e.message with
          | some m =>
            if strContainsCI m ("validation") || strContainsCI m ("invalid") then
              ⟨400, ("client")⟩
            else if strContainsCI m ("unauthorized") || strContainsCI m ("authentication") then
              ⟨401, ("client")⟩
            else if strContainsCI m ("forbidden") || strContainsCI m ("permission") then
              ⟨403, ("client")⟩
            else if strContainsCI m ("not found") then ⟨404, ("client")⟩
            else ⟨500, ("server")⟩
          | none => ⟨500, ("server")⟩

/-! ## Safe client-facing messages (`SAFE_ERROR_MESSAGES`, `generateSafeErrorMessage`) -/

/-- The `SAFE_ERROR_MESSAGES` table, keyed by status code. -/
def SAFE_ERROR_MESSAGES (s : Int) : Option String :=
  if s = 400 then some ("Bad Request - Invalid request format or parameters")
  else if s = 401 then some ("Unauthorized - Authentication required")
  else if s = 403 then some ("Forbidden - Access denied")
  else if s = 404 then some ("Not Found - The requested resource was not found")
  else if s = 405 then some ("Method Not Allowed - HTTP method not supported for this endpoint")
  else if s = 406 then some ("Not Acceptable - Requested format not available")
  else if s = 409 then some ("Conflict - Resource conflict detected")
  else if s = 413 then some ("Payload Too Large - Request payload exceeds size limit")
  else if s = 415 then some ("Unsupported Media Type - Content type not supported")
  else if s = 429 then some ("Too Many Requests - Rate limit exceeded")
  else if s = 500 then some ("Internal Server Error - An unexpected error occurred")
  else if s = 501 then some ("Not Implemented - Feature not implemented")
  else if s = 502 then some ("Bad Gateway - External service error")
  else if s = 503 then some ("Service Unavailable - Service temporarily unavailable")
  else if s = 504 then some ("Gateway Timeout - External service timeout")
  else none

/-- The `sensitivePatterns` test from `generateSafeErrorMessage`: true when any
of the twelve case-insensitive patterns matches the message. Eleven patterns
are literal substrings; `/file.*path/i` is modelled by `filePathHit`. -/
def containsSensitiveInfo (msg : String) : Bool :=
  strContainsCI msg ("password") || strContainsCI msg ("token") ||
  strContainsCI msg ("secret") || strContainsCI msg ("key") ||
  strContainsCI msg ("database") || strContainsCI msg ("connection") ||
  strContainsCI msg ("internal") || strContainsCI msg ("stack") ||
  filePathHit msg || strContainsCI msg ("directory") ||
  strContainsCI msg ("config") || strContainsCI msg ("env")

/-- `generateSafeErrorMessage`: serve the `SAFE_ERROR_MESSAGES` entry when the
status has one; otherwise, for a 4xx status with a truthy message that is
sensitive-free and under 200 characters, prefix the original message with
`Bad Request - `; otherwise fall back to a per-category default. -/
def generateSafeErrorMessage (statusCode : Int) (error : JsError) : String :=
  match SAFE_ERROR_MESSAGES statusCode with
  | some m => m
  | none =>
    let contextual : Option String :=
      if 400 ≤ statusCode ∧ statusCode < 500 then
        match jsTruthyStr error.message with
        | some msg =>
          if !containsSensitiveInfo msg ∧ msg.length < 200 then
            some (("Bad Request - ") ++ msg)
          else none
        | none => none
      else none
    match contextual with
    | some r => r
    | none =>
      if 400 ≤ statusCode ∧ statusCode < 500 then
        ("Bad Request - Invalid request format or parameters")
      else ("Internal Server Error - An unexpected error occurred")

/-! ## Error response body (`createErrorResponse`) -/

/-- The JSON body produced by `createErrorResponse`. There is no `stack`
field and no raw-error field in this shape: the only message carried is the
`message` argument. `errorId`, `retryAfter` and `maxSize` are present only
under the conditions in the source. -/
structure ErrorResponseBody where
  error : Bool
  status : Int
  message : String
  timestamp : String
  correlationId : String
  errorId : Option String
  retryAfter : Option String
  maxSize : Option String
deriving DecidableEq, Repr

/-- `createErrorResponse`. `timestamp` abstracts `new Date().toISOString()`.
`correlationId || 'unknown'` is JS-truthy fallback; `errorId` is attached
only for statuses ≥ 500. -/
def createErrorResponse (statusCode : Int) (message : String)
    (correlationId : Option String) (errorId : String) (timestamp : String) :
    ErrorResponseBody :=
  { error := true
    status := statusCode
    message := message
    timestamp := timestamp
    correlationId := jsOrStr correlationId ("unknown")
    errorId := if 500 ≤ statusCode then some errorId else none
    retryAfter := if statusCode = 429 then some ("60s") else none
    maxSize := if statusCode = 413 then some ("10MB") else none }

/-! ## Centralized error handler (`centralizedErrorHandler`)

The handler body is a `try` block of nine successive calls followed by a
`catch` block. Any of the nine calls may throw; the `catch` block first calls
`logger.error` (which may itself throw, in which case the exception leaves the
handler) and then, guarded by `!res.headersSent`, writes a minimal 500 JSON
body via `res.status(500).json(...)` (which may also throw). The model tracks
the Express response state and whether an exception escaped the handler. -/

/-- A body written to the response: either the full standardized body from
`createErrorResponse`, or the minimal fallback body
`{error, status, message, timestamp}` of the catch block (which carries no
`correlationId`, no `errorId` and no other detail). -/
inductive SentPayload where
  | full (b : ErrorResponseBody)
  | minimal (status : Int) (message : String) (timestamp : String)
deriving DecidableEq, Repr

/-- Express response state: whether headers have been flushed, the status code
set so far, and the bodies written (in order). -/
structure ResponseState where
  headersSent : Bool
  statusCode : Option Int
  bodies : List SentPayload
deriving DecidableEq, Repr

/-- Which calls throw during one run of the handler. `tryFail = some k` means
the `k`-th call of the `try` block throws (all earlier calls succeed);
`none` means the whole `try` block succeeds. The `try` calls are, in source
order: 0 `classifyError`, 1 `extractRequestContext`, 2 `createErrorLogEntry`,
3 `logger.error`, 4 `generateSafeErrorMessage`/`createErrorResponse`,
5 `res.status`, 6 `res.set` (security headers), 7 `res.json`, 8 `logger.info`.
`catchLogFails` and `catchSendFails` say whether the catch block's own
`logger.error` and `res.status(500).json` calls throw. -/
structure HandlerOracle where
  tryFail : Option (Fin 9)
  catchLogFails : Bool
  catchSendFails : Bool
deriving DecidableEq, Repr

/-- `centralizedErrorHandler` on a fresh error response (headers not yet
sent). Returns the final response state and whether an exception escaped the
handler. `cid` is the request's correlation id as seen by
`extractRequestContext`, `eid` the generated `errorId`, `ts`/`ts2` the
timestamps taken in the try and catch blocks. A call that throws has no
effect; `res.json` atomically flushes headers and writes the body. -/
def centralizedErrorHandler (o : HandlerOracle) (err : JsError)
    (cid : Option String) (eid ts ts2 : String) : ResponseState × Bool :=
  let cls := classifyError err
  let safeMessage := generateSafeErrorMessage cls.status err
  let body := createErrorResponse cls.status safeMessage cid eid ts
  let doneSteps : Nat :=
    match o.tryFail with
    | none => 9
    | some k => k.val
  let st : ResponseState :=
    { headersSent := decide (7 < doneSteps)
      statusCode := if 5 < doneSteps then some cls.status else none
      bodies := if 7 < doneSteps then [SentPayload.full body] else [] }
  match o.tryFail with
  | none => (st, false)
  | some _ =>
    if o.catchLogFails then (st, true)
    else if st.headersSent then (st, false)
    else if o.catchSendFails then (st, true)
    else
      ({ headersSent := true
         statusCode := some 500
         bodies := st.bodies ++
           [SentPayload.minimal 500
             ("Internal Server Error - An unexpected error occurred") ts2] },
       false)

/-! ## Health aggregation (health router, src/unnamed/part_005) -/

/-- One health sub-check result: the `healthy` flag and the `message` the
check produced (further detail fields do not enter the aggregation). -/
structure HealthCheck where
  healthy : Bool
  message : String
deriving DecidableEq, Repr

/-- The five named sub-checks computed by `performHealthChecks`, in the order
they are inserted into the `checks` object. -/
structure HealthChecks where
  process : HealthCheck
  memory : HealthCheck
  configuration : HealthCheck
  environment : HealthCheck
  dependencies : HealthCheck
deriving DecidableEq, Repr

/-- `Object.entries(checks)` of the five sub-checks, in insertion order. -/
def checksEntries (c : HealthChecks) : List (String × HealthCheck) :=
  [(("process"), c.process), (("memory"), c.memory),
   (("configuration"), c.configuration), (("environment"), c.environment),
   (("dependencies"), c.dependencies)]

/-- `performHealthChecks`, parametric in the five sub-check results: filter
the failed checks; if any failed, throw an `Error` whose message is
`Health check failures: ` followed by the comma-joined `name: message` pairs;
otherwise return the checks object. -/
def performHealthChecks (c : HealthChecks) : Except String HealthChecks :=
  let failedChecks := (checksEntries c).filter fun kv => !kv.2.healthy
  if failedChecks.length > 0 then
    Except.error (("Health check failures: ") ++
      String.intercalate (", ")
        (failedChecks.map fun kv => kv.1 ++ (": ") ++ kv.2.message))
  else Except.ok c

/-- Body of the `GET /health` response: the 200 branch returns the full
checks detail, the 503 branch carries the thrown error's message
(the handler places it in `errorResponse.error.message`). -/
inductive HealthHttpResponse where
  | ok (checks : HealthChecks)
  | unavailable (combinedMessage : String)
deriving DecidableEq, Repr

/-- The `GET /health` route handler as a function of the sub-check results:
status 200 with full detail when `performHealthChecks` returns, status 503
with the thrown combined message when it throws. -/
def healthRoute (c : HealthChecks) : Int × HealthHttpResponse :=
  match performHealthChecks c with
  | Except.ok checks => (200, HealthHttpResponse.ok checks)
  | Except.error m => (503, HealthHttpResponse.unavailable m)

/-- Modelled from the spec: the overall health boolean, "the logical AND of
all sub-check booleans". -/
def specAllHealthy (c : HealthChecks) : Prop :=
  c.process.healthy = true ∧ c.memory.healthy = true ∧
  c.configuration.healthy = true ∧ c.environment.healthy = true ∧
  c.dependencies.healthy = true

instance (c : HealthChecks) : Decidable (specAllHealthy c) := by
  unfold specAllHealthy; infer_instance

/-- Modelled from the spec: the "combined failure message (check name +
per-check message, comma-joined)" over the failing sub-checks. -/
def specCombinedFailureMessage (c : HealthChecks) : String :=
  ("Health check failures: ") ++
    String.intercalate (", ")
      (((checksEntries c).filter fun kv => kv.2.healthy = false).map
        fun kv => kv.1 ++ (": ") ++ kv.2.message)

/-! ## Memory sub-check and the configuration object it reads
(`validateMemoryUsage`, `config/index.js`) -/

/-- The flat configuration fields the health router reads (`config.NODE_ENV`,
`config.HOST`, `config.PORT`); `none` models a JS `undefined` property
read. -/
structure HealthConfigView where
  NODE_ENV : Option String
  HOST : Option String
  PORT : Option Int
deriving DecidableEq, Repr

/-- The configuration object the health router sees when
`require('../config/index')` succeeds: `config/index.js` exports a frozen
object whose keys are `server`, `app`, `logging`, `middleware`, `monitoring`,
`cluster` and `utils` only, so the flat reads `config.NODE_ENV`,
`config.HOST` and `config.PORT` are all `undefined`. -/
def configFromModule : HealthConfigView :=
  { NODE_ENV := none, HOST := none, PORT := none }

/-- The health router's fallback configuration, used only when requiring the
config module throws: `NODE_ENV: process.env.NODE_ENV || 'development'` (and
similarly HOST/PORT from the environment). -/
def fallbackConfig (envNodeEnv envHost : Option String) (envPort : Option Int) :
    HealthConfigView :=
  { NODE_ENV := some (jsOrStr envNodeEnv ("development"))
    HOST := some (jsOrStr envHost ("127.0.0.1"))
    PORT := some ((jsTruthyNum envPort).getD 3000) }

/-- The memory threshold of `validateMemoryUsage`:
`config.NODE_ENV === 'production' ? 150 : 100`. -/
def memoryThresholdMB (cfgNodeEnv : Option String) : Int :=
  if cfgNodeEnv = some ("production") then 150 else 100

/-- `validateMemoryUsage`, as a function of the configuration's `NODE_ENV`
read and the rounded resident-set-size in MB: healthy exactly when
`rssMB < memoryThresholdMB`, with the source's messages. -/
def validateMemoryUsage (cfgNodeEnv : Option String) (rssMB : Int) : HealthCheck :=
  let threshold := memoryThresholdMB cfgNodeEnv
  if rssMB < threshold then
    { healthy := true, message := ("Memory usage within limits") }
  else
    { healthy := false
      message := ("Memory usage exceeded threshold: ") ++ toString rssMB ++
        ("MB > ") ++ toString threshold ++ ("MB") }

/-! ## Correlation-ID middleware and the health router's own correlation id -/

/-- An inbound HTTP request: its headers (header names lowercased, as Node
exposes them). -/
structure HttpRequest where
  headers : List (String × String)
deriving DecidableEq, Repr

/-- Header lookup on a request. -/
def getHeader (r : HttpRequest) (k : String) : Option String :=
  (r.headers.find? fun kv => kv.1 == k).map fun kv => kv.2

/-- Effect of `correlationIdMiddleware` for one request, given the freshly
generated UUID: the id attached to the request object, the
`X-Correlation-ID` response header, and the correlation id of the
`Request initiated` log line. All three are the same fresh UUID; inbound
headers are not consulted. -/
structure MwOut where
  reqCorrelationId : String
  responseHeader : String × String
  logCorrelationId : String
deriving DecidableEq, Repr

/-- `correlationIdMiddleware`, with `uuid` abstracting `uuidv4()`. -/
def correlationIdMiddleware (uuid : String) (_req : HttpRequest) : MwOut :=
  { reqCorrelationId := uuid
    responseHeader := (("X-Correlation-ID"), uuid)
    logCorrelationId := uuid }

/-- The correlation id the health router's handlers compute for their response
bodies and log lines:
`req.headers['x-correlation-id'] || req.headers['x-request-id'] || fresh`,
where `fresh` abstracts the locally generated
`` `health-${Date.now()}-${random}` `` style identifier. -/
def healthRouteCorrelationId (req : HttpRequest) (fresh : String) : String :=
  jsOrStr (getHeader req ("x-correlation-id"))
    (jsOrStr (getHeader req ("x-request-id")) fresh)

/-! ## Claim theorems -/

/-- Claim C4: a failure carrying an explicit numeric `status` or `statusCode`
in [400,599] is classified with exactly that status, category `client` for
[400,500) and `server` for [500,599], regardless of name, fault code or
message. -/
theorem claim_C4 (e : JsError) (s : Int)
    (hs : firstTruthyNum e.status e.statusCode = some s)
    (h4 : 400 ≤ s) (_h5 : s ≤ 599) :
    classifyError e = ⟨s, if s < 500 then ("client") else ("server")⟩ := by
  have hcat : (400 ≤ s ∧ s < 500) ↔ s < 500 := ⟨fun h => h.2, fun h => ⟨h4, h⟩⟩
  unfold classifyError
  simp only [hs, hcat]

/-- Witness for C4 at the explicit status 418 carried by the error object. -/
theorem claim_C4_witness :
    firstTruthyNum (JsError.status { status := some 418 })
        (JsError.statusCode { status := some 418 }) = some 418 ∧
    classifyError { status := some 418 } = ⟨418, ("client")⟩ := by
  refine ⟨by decide, ?_⟩
  have h := claim_C4 { status := some 418 } 418 (by decide) (by decide) (by decide)
  simpa using h

/-- Claim C5: a failure with no truthy explicit status whose declared name
*or type* is a key of the classification table is classified with exactly the
table's entry, regardless of its message (or any other field). The first
conjunct covers the `error.name` lookup; the second covers the
`error.constructor.name` lookup, which the code consults when the name lookup
misses (name falsy or not a table key). -/
theorem claim_C5 :
    (∀ (e : JsError) (n : String) (c : ErrClass),
      jsTruthyNum e.status = none → jsTruthyNum e.statusCode = none →
      jsTruthyStr e.name = some n → classificationFor n = some c →
      classifyError e = c) ∧
    (∀ (e : JsError) (n : String) (c : ErrClass),
      jsTruthyNum e.status = none → jsTruthyNum e.statusCode = none →
      (jsTruthyStr e.name).bind classificationFor = none →
      jsTruthyStr e.ctorName = some n → classificationFor n = some c →
      classifyError e = c) := by
  constructor
  · intro e n c h1 h2 h3 h4
    have hft : firstTruthyNum e.status e.statusCode = none := by
      unfold firstTruthyNum; rw [h1, h2]
    have hname : (jsTruthyStr e.name).bind classificationFor = some c := by
      rw [h3]; simpa using h4
    unfold classifyError
    simp only [hft, hname]
  · intro e n c h1 h2 h3 h4 h5
    have hft : firstTruthyNum e.status e.statusCode = none := by
      unfold firstTruthyNum; rw [h1, h2]
    have hctor : (jsTruthyStr e.ctorName).bind classificationFor = some c := by
      rw [h4]; simpa using h5
    unfold classifyError
    simp only [hft, h3, hctor]

/-- Witness for C5: a `ValidationError` matched by name, and a failure whose
`name` is the inherited `Error` (not a table key) but whose constructor name
is `ValidationError`, matched by type; both messages mention none of the
trigger keywords. -/
theorem claim_C5_witness :
    classificationFor ("ValidationError") = some ⟨400, ("client")⟩ ∧
    classifyError { name := some ("ValidationError"),
                    message := some ("completely unrelated text") } =
      ⟨400, ("client")⟩ ∧
    classificationFor ("Error") = none ∧
    classifyError { name := some ("Error"),
                    ctorName := some ("ValidationError"),
                    message := some ("completely unrelated text") } =
      ⟨400, ("client")⟩ := by
  refine ⟨by decide, ?_, by decide, ?_⟩
  · exact claim_C5.1 _ ("ValidationError") ⟨400, ("client")⟩ (by decide) (by decide)
      (by decide) (by decide)
  · exact claim_C5.2 _ ("ValidationError") ⟨400, ("client")⟩ (by decide) (by decide)
      (by decide) (by decide) (by decide)

/-- Claim C10: the `ERROR_CLASSIFICATIONS` object literal binds `CastError`
twice (400, then 404); JS keeps the later binding, so a status-less failure
named `CastError` is classified 404/client, not 400. -/
theorem claim_C10 :
    classificationFor ("CastError") = some ⟨404, ("client")⟩ ∧
    ∀ e : JsError, jsTruthyNum e.status = none → jsTruthyNum e.statusCode = none →
      e.name = some ("CastError") → classifyError e = ⟨404, ("client")⟩ := by
  refine ⟨by decide, ?_⟩
  intro e h1 h2 h3
  have hft : firstTruthyNum e.status e.statusCode = none := by
    unfold firstTruthyNum; rw [h1, h2]
  have hname : (jsTruthyStr e.name).bind classificationFor = some ⟨404, ("client")⟩ := by
    rw [h3]; decide
  unfold classifyError
  simp only [hft, hname]

/-- Witness for C10 at a bare `CastError`. -/
theorem claim_C10_witness :
    classifyError { name := some ("CastError"), message := some ("invalid id") } =
      ⟨404, ("client")⟩ :=
  claim_C10.2 _ (by decide) (by decide) rfl

/-- Counterexample to C6 as stated: `EADDRINUSE` is none of the
connection-refused / timeout / address-not-found / permission-denied codes,
so the claim maps it to 500, but the code's switch maps it to 503. -/
theorem claim_C6_counterexample :
    (("EADDRINUSE") ≠ ("ECONNREFUSED") ∧ ("EADDRINUSE") ≠ ("ETIMEDOUT") ∧
     ("EADDRINUSE") ≠ ("ENOTFOUND") ∧ ("EADDRINUSE") ≠ ("EACCES")) ∧
    classifyError { code := some ("EADDRINUSE") } = ⟨503, ("server")⟩ ∧
    classifyError { code := some ("EADDRINUSE") } ≠ ⟨500, ("server")⟩ := by
  decide

/-- Claim C6 (amended): with no explicit status and no recognized name or
constructor name, a truthy fault code maps connection-refused, timeout,
address-not-found *and address-in-use* codes to 503/server, permission-denied
to 403/client, and any other fault code to 500/server. -/
theorem claim_C6 (e : JsError) (c : String)
    (h1 : jsTruthyNum e.status = none) (h2 : jsTruthyNum e.statusCode = none)
    (h3 : (jsTruthyStr e.name).bind classificationFor = none)
    (h4 : (jsTruthyStr e.ctorName).bind classificationFor = none)
    (h5 : jsTruthyStr e.code = some c) :
    classifyError e =
      if c = "EADDRINUSE" ∨ c = "ECONNREFUSED" ∨ c = "ENOTFOUND" ∨ c = "ETIMEDOUT" then
        ⟨503, ("server")⟩
      else if c = "EACCES" then ⟨403, ("client")⟩
      else ⟨500, ("server")⟩ := by
  have hft : firstTruthyNum e.status e.statusCode = none := by
    unfold firstTruthyNum; rw [h1, h2]
  unfold classifyError
  simp only [hft, h3, h4, h5]

/-- Witness for C6 at a bare `ETIMEDOUT` failure. -/
theorem claim_C6_witness :
    classifyError { code := some ("ETIMEDOUT") } = ⟨503, ("server")⟩ := by
  have h := claim_C6 { code := some ("ETIMEDOUT") } ("ETIMEDOUT")
    (by decide) (by decide) (by decide) (by decide) (by decide)
  simpa using h

/-- Counterexample to C2 as stated: status 400 has a `SAFE_ERROR_MESSAGES`
entry, and `generateSafeErrorMessage` serves a table entry *before* even
looking at the original message, so a short, sensitive-free message is not
echoed back with the `Bad Request - ` prefix. -/
theorem claim_C2_counterexample :
    (400:Int) ≤ 400 ∧ (400:Int) < 500 ∧
    (("oops") : String).length < 200 ∧
    containsSensitiveInfo ("oops") = false ∧
    generateSafeErrorMessage 400 { message := some ("oops") } ≠ ("Bad Request - oops") ∧
    generateSafeErrorMessage 400 { message := some ("oops") } =
      ("Bad Request - Invalid request format or parameters") := by
  decide

/-- Claim C2 (amended): for a 4xx status *with* a safe-table entry the entry
is always returned, whatever the message; the `Bad Request - ` echo applies
only to a 4xx status *without* a table entry whose truthy message is
sensitive-free and under 200 characters. -/
theorem claim_C2 (s : Int) (e : JsError) (h4 : 400 ≤ s) (h5 : s < 500) :
    (∀ m, SAFE_ERROR_MESSAGES s = some m → generateSafeErrorMessage s e = m) ∧
    (∀ msg, SAFE_ERROR_MESSAGES s = none → jsTruthyStr e.message = some msg →
      containsSensitiveInfo msg = false → msg.length < 200 →
      generateSafeErrorMessage s e = ("Bad Request - ") ++ msg) := by
  constructor
  · intro m hm
    unfold generateSafeErrorMessage
    simp only [hm]
  · intro msg hnone hmsg hsens hlen
    have hc : (400 ≤ s ∧ s < 500) := ⟨h4, h5⟩
    unfold generateSafeErrorMessage
    simp only [hnone, hmsg, hsens, hc, if_true, Bool.not_false, true_and, hlen,
      if_pos, and_self]

/-- Witness for C2: the table entry wins at 400, and the echo path fires at
402 (a 4xx status with no table entry). -/
theorem claim_C2_witness :
    generateSafeErrorMessage 400 { message := some ("tiny detail") } =
      ("Bad Request - Invalid request format or parameters") ∧
    generateSafeErrorMessage 402 { message := some ("tiny detail") } =
      ("Bad Request - tiny detail") := by
  constructor
  · exact (claim_C2 400 { message := some ("tiny detail") } (by decide) (by decide)).1
      _ (by decide)
  · exact (claim_C2 402 { message := some ("tiny detail") } (by decide) (by decide)).2
      ("tiny detail") (by decide) (by decide) (by decide) (by decide)

/-- Claim C7: the standardized error body carries `errorId` exactly when the
status is ≥ 500, and for any status ≥ 500 the client message is determined by
the status alone — the fixed table entry (the generic 500 text for a 5xx
status outside the table) — never the failure's own message or stack (the
body shape has no stack field and the message argument is the safe one). -/
theorem claim_C7 (statusCode : Int) (message : String) (cid : Option String)
    (eid ts : String) (e : JsError) :
    ((createErrorResponse statusCode message cid eid ts).errorId.isSome ↔
      500 ≤ statusCode) ∧
    (500 ≤ statusCode →
      generateSafeErrorMessage statusCode e =
        (SAFE_ERROR_MESSAGES statusCode).getD
          ("Internal Server Error - An unexpected error occurred")) := by
  constructor
  · unfold createErrorResponse
    by_cases h : 500 ≤ statusCode <;> simp [h]
  · intro h5
    unfold generateSafeErrorMessage
    cases hm : SAFE_ERROR_MESSAGES statusCode with
    | some m => simp [hm]
    | none =>
      have hno : ¬(400 ≤ statusCode ∧ statusCode < 500) := by omega
      simp [hm, hno]

/-- Witness for C7 at status 503 (table 5xx, `errorId` present) and implicitly
at the independence of the message from the error value. -/
theorem claim_C7_witness :
    (createErrorResponse 503 ("m") none ("err_1") ("t")).errorId.isSome = true ∧
    generateSafeErrorMessage 503 { message := some ("db exploded at /srv/x") } =
      ("Service Unavailable - Service temporarily unavailable") := by
  constructor
  · have h := (claim_C7 503 ("m") none ("err_1") ("t")
      { message := some ("db exploded at /srv/x") }).1
    simpa using h.mpr (by decide)
  · have h := (claim_C7 503 ("m") none ("err_1") ("t")
      { message := some ("db exploded at /srv/x") }).2 (by decide)
    simpa using h

/-- Claim C1: the health report is overall healthy iff all five sub-checks
are healthy (the logical AND, as per the spec-side `specAllHealthy`); when
all pass, `GET /health` answers 200 with the full checks detail, and when any
fails it answers 503 carrying the combined failure message — `name: message`
of each failing check, comma-joined (spec-side
`specCombinedFailureMessage`). -/
theorem claim_C1 (c : HealthChecks) :
    ((healthRoute c).1 = 200 ↔ specAllHealthy c) ∧
    (specAllHealthy c → healthRoute c = (200, HealthHttpResponse.ok c)) ∧
    (¬ specAllHealthy c →
      healthRoute c =
        (503, HealthHttpResponse.unavailable (specCombinedFailureMessage c))) := by
  obtain ⟨⟨ph, pm⟩, ⟨mh, mm⟩, ⟨ch, cm⟩, ⟨eh, em⟩, ⟨dh, dm⟩⟩ := c
  cases ph <;> cases mh <;> cases ch <;> cases eh <;> cases dh <;>
    simp [healthRoute, performHealthChecks, checksEntries, specAllHealthy,
      specCombinedFailureMessage]

/-- A fully healthy concrete report. -/
def allGoodChecks : HealthChecks :=
  { process := ⟨true, ("Process healthy")⟩
    memory := ⟨true, ("Memory usage within limits")⟩
    configuration := ⟨true, ("Configuration validated")⟩
    environment := ⟨true, ("Environment validated")⟩
    dependencies := ⟨true, ("All dependencies available")⟩ }

/-- A concrete report whose memory sub-check fails. -/
def memFailChecks : HealthChecks :=
  { process := ⟨true, ("Process healthy")⟩
    memory := ⟨false, ("Memory usage exceeded threshold: 120MB > 100MB")⟩
    configuration := ⟨true, ("Configuration validated")⟩
    environment := ⟨true, ("Environment validated")⟩
    dependencies := ⟨true, ("All dependencies available")⟩ }

/-- Witness for C1: a fully healthy report yields 200 with full detail; a
report whose memory sub-check fails yields 503 with the combined message. -/
theorem claim_C1_witness :
    healthRoute allGoodChecks = (200, HealthHttpResponse.ok allGoodChecks) ∧
    healthRoute memFailChecks =
      (503, HealthHttpResponse.unavailable
        ("Health check failures: memory: Memory usage exceeded threshold: 120MB > 100MB")) := by
  constructor
  · exact (claim_C1 allGoodChecks).2.1 (by decide)
  · have h := (claim_C1 memFailChecks).2.2 (by decide)
    simpa [memFailChecks, specCombinedFailureMessage, checksEntries] using h

/-- Claim C3 (failing input): `validateMemoryUsage` reads `config.NODE_ENV`,
but on a successful `require('../config/index')` the exported object has no
top-level `NODE_ENV` key, so the read is `undefined` and the threshold is 100
even in production — the 150MB production threshold only exists when the
fallback configuration (taken on a failed require) is in use. At 120MB
resident set size in production the claim expects healthy (120 < 150) while
the code reports unhealthy (120 ≥ 100) and the route answers 503 with
`memory` among the failing checks. -/
theorem claim_C3_bug :
    memoryThresholdMB configFromModule.NODE_ENV = 100 ∧
    memoryThresholdMB ((fallbackConfig (some ("production")) none none).NODE_ENV) = 150 ∧
    (validateMemoryUsage configFromModule.NODE_ENV 120).healthy = false ∧
    (validateMemoryUsage (some ("production")) 120).healthy = true ∧
    healthRoute { process := ⟨true, ("Process healthy")⟩,
                  memory := validateMemoryUsage configFromModule.NODE_ENV 120,
                  configuration := ⟨true, ("Configuration validated")⟩,
                  environment := ⟨true, ("Environment validated")⟩,
                  dependencies := ⟨true, ("All dependencies available")⟩ } =
      (503, HealthHttpResponse.unavailable
        (("Health check failures: memory: ") ++
          (validateMemoryUsage configFromModule.NODE_ENV 120).message)) := by
  refine ⟨rfl, rfl, rfl, rfl, ?_⟩
  decide

/-- Counterexample to C8 as stated: when the try block throws (here at the
`logger.error` call, step 3) and the catch block's own `logger.error` call
throws as well — the spec's own example is a failing logger, and the catch
block uses the same logger unguarded — the exception escapes the handler and
no minimal 500 body is emitted. -/
theorem claim_C8_counterexample :
    (centralizedErrorHandler ⟨some 3, true, false⟩ { } none ("err_1") ("t1") ("t2")).2 =
      true ∧
    (centralizedErrorHandler ⟨some 3, true, false⟩ { } none ("err_1") ("t1") ("t2")).1.bodies =
      [] := by
  decide

/-- Claim C8 (amended): provided the catch block's own logging call and
response write do not themselves throw, a throw anywhere in the try block
never propagates out of the handler; if the throw happened at or before the
`res.json` call (so no headers were sent) the handler emits exactly the
minimal 500 JSON body with no extra detail; and in every case — whatever
throws — at most one response body is ever written. -/
theorem claim_C8 (o : HandlerOracle) (err : JsError) (cid : Option String)
    (eid ts ts2 : String) :
    (centralizedErrorHandler o err cid eid ts ts2).1.bodies.length ≤ 1 ∧
    (o.catchLogFails = false → o.catchSendFails = false →
      (centralizedErrorHandler o err cid eid ts ts2).2 = false) ∧
    (o.catchLogFails = false → o.catchSendFails = false →
      ∀ k : Fin 9, o.tryFail = some k → k.val ≤ 7 →
        (centralizedErrorHandler o err cid eid ts ts2).1.bodies =
          [SentPayload.minimal 500
            ("Internal Server Error - An unexpected error occurred") ts2]) := by
  obtain ⟨tf, clf, csf⟩ := o
  cases tf with
  | none =>
    refine ⟨?_, ?_, ?_⟩
    · simp [centralizedErrorHandler]
    · intro h1 h2; simp [centralizedErrorHandler]
    · intro h1 h2 k hk; exact absurd hk (by simp)
  | some k =>
    refine ⟨?_, ?_, ?_⟩
    · by_cases hk7 : 7 < k.val <;> cases clf <;> cases csf <;>
        simp [centralizedErrorHandler, hk7]
    · intro h1 h2
      have hclf : clf = false := h1
      have hcsf : csf = false := h2
      subst hclf; subst hcsf
      by_cases hk7 : 7 < k.val <;> simp [centralizedErrorHandler, hk7]
    · intro h1 h2 j hj hle
      have hclf : clf = false := h1
      have hcsf : csf = false := h2
      subst hclf; subst hcsf
      have hjk : k = j := Option.some.inj hj
      subst hjk
      have hk7 : ¬ 7 < k.val := by omega
      simp [centralizedErrorHandler, hk7]

/-- Witness for C8: the try block throws at its `logger.error` call (step 3)
and the guarded fallback path succeeds, emitting exactly the minimal body. -/
theorem claim_C8_witness :
    (centralizedErrorHandler ⟨some 3, false, false⟩ { } none ("err_1") ("t1") ("t2")).1.bodies.length ≤ 1 ∧
    (centralizedErrorHandler ⟨some 3, false, false⟩ { } none ("err_1") ("t1") ("t2")).2 = false ∧
    (centralizedErrorHandler ⟨some 3, false, false⟩ { } none ("err_1") ("t1") ("t2")).1.bodies =
      [SentPayload.minimal 500
        ("Internal Server Error - An unexpected error occurred") ("t2")] := by
  have h := claim_C8 ⟨some 3, false, false⟩ { } none ("err_1") ("t1") ("t2")
  exact ⟨h.1, h.2.1 rfl rfl, h.2.2 rfl rfl 3 rfl (by decide)⟩

/-- Counterexample to C9 as stated: for a request carrying no
`x-correlation-id` / `x-request-id` headers, the middleware assigns a fresh
UUID and puts it in the `X-Correlation-ID` response header, but the health
router's handler computes its own identifier (its local `health-…` fallback)
for the response body and its log lines — so the identifier in the response
body is not the one in the header. -/
theorem claim_C9_counterexample :
    (correlationIdMiddleware ("a3b8f2c1-7d4e-4f0a-9c21-5e8d6b7a1f23") ⟨[]⟩).responseHeader.2 =
      ("a3b8f2c1-7d4e-4f0a-9c21-5e8d6b7a1f23") ∧
    healthRouteCorrelationId ⟨[]⟩ ("health-1700000000000-k3j9d2f1q") =
      ("health-1700000000000-k3j9d2f1q") ∧
    healthRouteCorrelationId ⟨[]⟩ ("health-1700000000000-k3j9d2f1q") ≠
      (correlationIdMiddleware ("a3b8f2c1-7d4e-4f0a-9c21-5e8d6b7a1f23") ⟨[]⟩).responseHeader.2 := by
  refine ⟨rfl, rfl, ?_⟩
  decide

/-- Claim C9 (amended): the middleware-assigned identifier is set once,
echoed unchanged as a non-empty `X-Correlation-ID` header, kept on the
request object and used in the middleware's own log line; the health router's
response-body identifier equals the inbound `x-correlation-id` header when
the client supplied one (and otherwise is the router's local fallback, not
the middleware's identifier). -/
theorem claim_C9 (uuid fresh : String) (req : HttpRequest) (hne : uuid ≠ "") :
    (correlationIdMiddleware uuid req).responseHeader = (("X-Correlation-ID"), uuid) ∧
    (correlationIdMiddleware uuid req).responseHeader.2 ≠ "" ∧
    (correlationIdMiddleware uuid req).reqCorrelationId = uuid ∧
    (correlationIdMiddleware uuid req).logCorrelationId = uuid ∧
    (∀ h, getHeader req ("x-correlation-id") = some h → h ≠ "" →
      healthRouteCorrelationId req fresh = h) := by
  refine ⟨rfl, hne, rfl, rfl, ?_⟩
  intro h hh hne2
  unfold healthRouteCorrelationId
  rw [hh]
  simp [jsOrStr, jsTruthyStr, hne2]

/-- Witness for C9: a client-supplied correlation header is echoed in the
health body, while the middleware header carries its own UUID. -/
theorem claim_C9_witness :
    (correlationIdMiddleware ("u-1") ⟨[(("x-correlation-id"), ("client-42"))]⟩).responseHeader =
      (("X-Correlation-ID"), ("u-1")) ∧
    healthRouteCorrelationId ⟨[(("x-correlation-id"), ("client-42"))]⟩ ("health-9") =
      ("client-42") := by
  have h := claim_C9 ("u-1") ("health-9") ⟨[(("x-correlation-id"), ("client-42"))]⟩
    (by decide)
  exact ⟨h.1, h.2.2.2.2 ("client-42") (by decide) (by decide)⟩
